import Mathlib

/-!
Verification of the subprocess-hosted RPC client of crawl4ai-rag.

The development shallowly embeds the Python code of
src/utils/mcp_subprocess.py, src/utils/mcp_client.py,
src/utils/github_mcp_http.py and src/analyzer/github_mcp.py.
Pure data flow is embedded as Lean functions; external effects
(json.loads, OS process spawning, timed reads, signals) are passed in as
explicit oracle parameters describing their outcome, and the embedded
control flow is taken line by line from the source.
-/

/-! ## JSON values

Python dict/list/str/int/bool/None values exchanged with the tool-server.
Objects are association lists (Python dicts have unique keys; lookup
returns the first binding).
-/

inductive Json where
  | null : Json
  | bool : Bool → Json
  | num : Int → Json
  | str : String → Json
  | arr : List Json → Json
  | obj : List (String × Json) → Json

def lookupField : List (String × Json) → String → Option Json
  | [], _ => none
  | (k, v) :: rest, key => if k = key then some v else lookupField rest key

def Json.getKey : Json → String → Option Json
  | Json.obj fields, k => lookupField fields k
  | _, _ => none

/-- Mirrors the Python membership test of the pattern seen in the source,
for instance the line reading, in words, if error is a key in result.
For a dict this is key membership; for a list it is element membership
(only a string element can equal the probed key).  Other operand shapes
raise TypeError in Python and are outside the modelled domain. -/
def pyContains : Json → String → Bool
  | Json.obj fields, k => fields.any (fun p => p.1 == k)
  | Json.arr xs, k => xs.any (fun x => match x with
      | Json.str s => s == k
      | _ => false)
  | _, _ => false

/-- Python truthiness of a JSON value, mirroring conditions such as the
source line reading, in words, if not result. -/
def pyTruthy : Json → Bool
  | Json.null => false
  | Json.bool b => b
  | Json.num n => n != 0
  | Json.str s => s != ""
  | Json.arr xs => !xs.isEmpty
  | Json.obj fields => !fields.isEmpty

/-- Mirrors the Python dict method get with default None. -/
def pyGet (j : Json) (k : String) : Json :=
  match Json.getKey j k with
  | some v => v
  | none => Json.null

/-! ## Line-oriented response codec

Embedded from source.  Python json.loads either raises (modelled as the
parse outcome none) or yields a value; all branches below take the parse
outcome as input and mirror the source branch for branch.  The two
decoders below return the raw dict the Python code returns: a bare
payload stands for the Success case of the ToolResponse tagged union,
and an object with a single error binding stands for the Failure case.
-/

/-- Embedded from src/utils/github_mcp_http.py, lines 111 to 125: the
HTTP 200 response-body parsing branch of
GithubMcpHttpClient.run_github_mcp_and_request.  Input none models a
body on which response.json raised JSONDecodeError. -/
def run_github_mcp_parse (parsed : Option (List (String × Json))) : Json :=
  match parsed with
  | none => Json.obj [("error", Json.str "Invalid JSON response")]
  | some fields =>
    match lookupField fields "result" with
    | some r => r
    | none =>
      match lookupField fields "error" with
      | some e => Json.obj [("error", e)]
      | none => Json.obj [("error", Json.str "Invalid response format")]

/-- Embedded from src/utils/mcp_client.py, lines 144 to 162: the
response-line parsing of McpClient.use_github_mcp.  Input none models a
line on which json.loads raised JSONDecodeError. -/
def use_github_mcp_parse (parsed : Option (List (String × Json))) : Json :=
  match parsed with
  | none => Json.obj [("error", Json.str "Invalid JSON response")]
  | some fields =>
    match lookupField fields "result" with
    | some r => r
    | none =>
      match lookupField fields "error" with
      | some e => Json.obj [("error", e)]
      | none => Json.obj [("error", Json.str "Invalid response from MCP server")]

/-! ## SubprocessManager.send_request -/

/-- Oracle describing one request/response exchange as seen by
SubprocessManager.send_request: whether the stdin/stdout handles are
available, the pair returned by the timed reader, the json.loads
outcome on a given line, and whether the write/flush raised. -/
structure ExchangeEnv where
  channelOk : Bool
  readResult : String × String
  parse : String → Option Json
  writeRaises : Option String

/-- Embedded from src/utils/mcp_subprocess.py, lines 74 to 119:
SubprocessManager.send_request after the request has been encoded.  A
parsed response object is returned verbatim (this path does no
result/error tagging of its own); the distinguished error dicts mirror
the source strings exactly. -/
def send_request (env : ExchangeEnv) : Json :=
  if env.channelOk = false then
    Json.obj [("error", Json.str "MCP server communication channel is broken")]
  else
    match env.writeRaises with
    | some msg => Json.obj [("error", Json.str msg)]
    | none =>
      if env.readResult.1 = "" then
        Json.obj [("error", Json.str "No response received from MCP server")]
      else
        match env.parse env.readResult.1.trim with
        | some j => j
        | none => Json.obj [("error", Json.str "Invalid JSON response")]

/-! ## Claim C1 -/

/-- C1, counterexample: the claim states that a line failing to parse as
JSON yields Failure with error text reading invalid JSON response with
a lowercase initial letter.  The code (all three decode sites) returns
the string Invalid JSON response with a capital initial letter, a
different string. -/
theorem c1_counterexample :
    run_github_mcp_parse none = Json.obj [("error", Json.str "Invalid JSON response")] ∧
    use_github_mcp_parse none = Json.obj [("error", Json.str "Invalid JSON response")] ∧
    "Invalid JSON response" ≠ "invalid JSON response" :=
  ⟨rfl, rfl, by decide⟩

/-- C1 (amended): for every response line, the decode step yields: on a
parse failure, a Failure with error string Invalid JSON response; if
the parsed object has a result key, the bare result payload (Success);
if it has an error key, a Failure carrying that error payload; and if
it has neither key, a Failure whose error string is Invalid response
format on the HTTP path and Invalid response from MCP server on the
stdio client path.  The persistent-session path
(SubprocessManager.send_request) returns a parsed object verbatim,
tagging only parse failures. -/
theorem c1_decode_amended (parsed : Option (List (String × Json))) :
    (parsed = none →
      run_github_mcp_parse parsed = Json.obj [("error", Json.str "Invalid JSON response")] ∧
      use_github_mcp_parse parsed = Json.obj [("error", Json.str "Invalid JSON response")]) ∧
    (∀ fields r, parsed = some fields → lookupField fields "result" = some r →
      run_github_mcp_parse parsed = r ∧ use_github_mcp_parse parsed = r) ∧
    (∀ fields e, parsed = some fields → lookupField fields "result" = none →
      lookupField fields "error" = some e →
      run_github_mcp_parse parsed = Json.obj [("error", e)] ∧
      use_github_mcp_parse parsed = Json.obj [("error", e)]) ∧
    (∀ fields, parsed = some fields → lookupField fields "result" = none →
      lookupField fields "error" = none →
      run_github_mcp_parse parsed = Json.obj [("error", Json.str "Invalid response format")] ∧
      use_github_mcp_parse parsed =
        Json.obj [("error", Json.str "Invalid response from MCP server")]) ∧
    (∀ env : ExchangeEnv, ∀ j : Json, env.channelOk = true → env.writeRaises = none →
      env.readResult.1 ≠ "" → env.parse env.readResult.1.trim = some j →
      send_request env = j) := by
  refine ⟨?_, ?_, ?_, ?_, ?_⟩
  · rintro rfl
    exact ⟨rfl, rfl⟩
  · rintro fields r rfl hr
    constructor <;> simp [run_github_mcp_parse, use_github_mcp_parse, hr]
  · rintro fields e rfl hr he
    constructor <;> simp [run_github_mcp_parse, use_github_mcp_parse, hr, he]
  · rintro fields rfl hr he
    constructor <;> simp [run_github_mcp_parse, use_github_mcp_parse, hr, he]
  · intro env j hok hw hne hp
    simp [send_request, hok, hw, hne, hp]

/-- C1 witness: the amended theorem applied at concrete inputs. -/
theorem c1_decode_amended_witness :
    (run_github_mcp_parse (some [("result", Json.null)]) = Json.null ∧
      use_github_mcp_parse (some [("result", Json.null)]) = Json.null) ∧
    (run_github_mcp_parse (some [("error", Json.str "boom")]) =
        Json.obj [("error", Json.str "boom")] ∧
      use_github_mcp_parse (some [("error", Json.str "boom")]) =
        Json.obj [("error", Json.str "boom")]) ∧
    send_request ⟨true, ("x\n", ""), fun _ => some (Json.obj []), none⟩ = Json.obj [] :=
  ⟨(c1_decode_amended (some [("result", Json.null)])).2.1 _ _ rfl rfl,
   (c1_decode_amended (some [("error", Json.str "boom")])).2.2.1 _ _ rfl rfl rfl,
   (c1_decode_amended none).2.2.2.2 ⟨true, ("x\n", ""), fun _ => some (Json.obj []), none⟩
     (Json.obj []) rfl rfl (by decide) rfl⟩

/-! ## Claim C2 -/

/-- C2, counterexample: the claim states that an exchange reading no
bytes before EOF or timeout returns a Failure whose error is the string
reading no response received.  At the concrete input below (channel ok,
write succeeds, the timed reader returns an empty stdout line) the code
returns the different string No response received from MCP server. -/
theorem c2_counterexample :
    send_request ⟨true, ("", ""), (fun _ => none), none⟩ =
      Json.obj [("error", Json.str "No response received from MCP server")] ∧
    "No response received from MCP server" ≠ "no response received" :=
  ⟨rfl, by decide⟩

/-- C2 (amended): for every exchange in which no bytes are read from
stdout before EOF or timeout, send_request returns a Failure whose
error is the string No response received from MCP server, and this is
never the Failure produced by a present-but-unparsable line, whose
error is the string Invalid JSON response; the two error values differ. -/
theorem c2_no_response_amended (env env2 : ExchangeEnv)
    (h1 : env.channelOk = true) (h2 : env.writeRaises = none)
    (h3 : env.readResult.1 = "")
    (h4 : env2.channelOk = true) (h5 : env2.writeRaises = none)
    (h6 : env2.readResult.1 ≠ "") (h7 : env2.parse env2.readResult.1.trim = none) :
    send_request env = Json.obj [("error", Json.str "No response received from MCP server")] ∧
    send_request env2 = Json.obj [("error", Json.str "Invalid JSON response")] ∧
    "No response received from MCP server" ≠ "Invalid JSON response" := by
  refine ⟨?_, ?_, by decide⟩
  · simp [send_request, h1, h2, h3]
  · simp [send_request, h4, h5, h6, h7]

/-- C2 witness: the amended theorem applied at a dead-server exchange
(empty line) and a misbehaving-server exchange (unparsable line). -/
theorem c2_no_response_amended_witness :
    send_request ⟨true, ("", "server crashed"), (fun _ => none), none⟩ =
      Json.obj [("error", Json.str "No response received from MCP server")] ∧
    send_request ⟨true, ("not json\n", ""), (fun _ => none), none⟩ =
      Json.obj [("error", Json.str "Invalid JSON response")] ∧
    "No response received from MCP server" ≠ "Invalid JSON response" :=
  c2_no_response_amended
    ⟨true, ("", "server crashed"), (fun _ => none), none⟩
    ⟨true, ("not json\n", ""), (fun _ => none), none⟩
    rfl rfl rfl rfl rfl (by decide) rfl

/-! ## Claim C3: the timed reader -/

/-- Oracle describing one run of SubprocessManager._read_with_timeout
from src/utils/mcp_subprocess.py, lines 122 to 166: whether the stdout
reader thread delivered a line before the join deadline, the line it
read, and the stderr text the drain thread collected. -/
structure ReadEnv where
  lineArrived : Bool
  pendingLine : String
  stderrData : String

/-- Embedded from src/utils/mcp_subprocess.py, lines 122 to 166:
SubprocessManager._read_with_timeout.  If the stdout thread is still
alive after the timeout the function returns an empty stdout line with
the stderr collected so far; otherwise it returns the line read.  The
embedding is a total function: every branch of the source returns a
pair and no branch raises. -/
def read_with_timeout (env : ReadEnv) : String × String :=
  if env.lineArrived then (env.pendingLine, env.stderrData)
  else ("", env.stderrData)

/-- C3 (confirmed): for every ProcessHandle state, the timed read
returns normally in all cases; on timeout it returns an empty
stdout line paired with whatever stderr text was collected, and a
received empty response line (the newline string delivered by readline)
is distinguishable from the timeout result. -/
theorem c3_timed_read_total (line err err2 : String) :
    read_with_timeout ⟨false, line, err⟩ = ("", err) ∧
    read_with_timeout ⟨true, line, err⟩ = (line, err) ∧
    (read_with_timeout ⟨true, "\n", err⟩).1 ≠ (read_with_timeout ⟨false, line, err2⟩).1 := by
  refine ⟨rfl, rfl, ?_⟩
  simp [read_with_timeout]

/-! ## Claim C4: stop_server -/

/-- A SubprocessManager as far as teardown is concerned: the process
field is None (Stopped or NotStarted) or holds a live handle, here a
pid. -/
structure SubprocessManager where
  process : Option Nat

/-- Oracle describing how the child responds to the termination
sequence of stop_server: it may exit within the 5 second graceful wait,
exit only after the kill signal, ignore the kill too (the second wait
raises TimeoutExpired, which the source catches), or the signal
delivery itself may raise. -/
inductive TermBehavior where
  | exitsGracefully : TermBehavior
  | killedThenExits : TermBehavior
  | ignoresKill : TermBehavior
  | termSignalRaises : TermBehavior
  | killSignalRaises : TermBehavior

/-- Whether the source reaches the forceful-kill branch: the graceful
wait raised TimeoutExpired and the terminate signal itself did not
raise. -/
def needsKill : TermBehavior → Bool
  | TermBehavior.killedThenExits => true
  | TermBehavior.ignoresKill => true
  | TermBehavior.killSignalRaises => true
  | _ => false

/-- The exception, if any, escaping the try block inside stop_server;
the source catches it and logs it. -/
def termBlockError : TermBehavior → Option String
  | TermBehavior.termSignalRaises => some "signal delivery failed"
  | TermBehavior.killSignalRaises => some "kill delivery failed"
  | TermBehavior.ignoresKill => some "TimeoutExpired"
  | _ => none

/-- Trace of one stop_server call: the manager afterwards, whether the
graceful terminate and the forceful kill were attempted, and whether a
termination error was caught and logged.  The embedding has no error
outcome: the source wraps the whole termination sequence in a broad
except clause and unconditionally clears the process field afterwards. -/
structure StopTrace where
  mgr : SubprocessManager
  termAttempted : Bool
  killAttempted : Bool
  loggedError : Bool

/-- Embedded from src/utils/mcp_subprocess.py, lines 168 to 198:
SubprocessManager.stop_server.  With no process the body is skipped
entirely; otherwise the graceful-then-forceful sequence runs inside a
try block whose except clause only logs, and the process field is set
to None in every case. -/
def stop_server (m : SubprocessManager) (b : TermBehavior) : StopTrace :=
  match m.process with
  | none => ⟨m, false, false, false⟩
  | some _ => ⟨⟨none⟩, true, needsKill b, (termBlockError b).isSome⟩

/-- C4 (confirmed): stop_server sends the graceful termination signal
whenever a process is live, reaches the forceful kill exactly when the
graceful wait times out, always leaves the manager Stopped (process
cleared) even when termination errors (those are logged, never
propagated: the embedding is total with no error outcome), and a second
call on the same manager is a no-op that attempts nothing and raises
nothing. -/
theorem c4_stop_server_safe (m : SubprocessManager) (b b2 : TermBehavior) :
    (stop_server m b).mgr.process = none ∧
    (stop_server m b).termAttempted = m.process.isSome ∧
    (stop_server m b).killAttempted = (m.process.isSome && needsKill b) ∧
    (stop_server m b).loggedError = (m.process.isSome && (termBlockError b).isSome) ∧
    stop_server (stop_server m b).mgr b2 = ⟨(stop_server m b).mgr, false, false, false⟩ := by
  obtain ⟨p⟩ := m
  cases p <;> simp [stop_server]

/-! ## Claim C5: one-shot exchange and process cleanup -/

/-- A process lifecycle event produced while one call of
McpClient.use_github_mcp runs: spawning a child or calling terminate on
one, identified by spawn order. -/
inductive ProcEvent where
  | spawn : Nat → ProcEvent
  | terminate : Nat → ProcEvent

/-- How far one call of the subprocess branch of
McpClient.use_github_mcp gets (the branch taken when the cline module
is absent and a token is configured). -/
inductive OneShotScript where
  | clineAvailable : OneShotScript
  | noToken : OneShotScript
  | spawnOneFails : OneShotScript
  | spawnTwoFails : OneShotScript
  | exchangeFails : OneShotScript
  | exchangeCompletes : OneShotScript

/-- Embedded from src/utils/mcp_client.py, lines 69 to 172: the process
lifecycle events of one McpClient.use_github_mcp call.  The source
first spawns a server through run_github_mcp_server (line 111), then
overwrites the variable holding its handle with a second Popen (line
117); both terminate calls (lines 141 and 154) go to the second handle.
The broad except clause at line 164 unlinks the temp file and falls
back to mock data without terminating anything. -/
def use_github_mcp_events : OneShotScript → List ProcEvent
  | OneShotScript.clineAvailable => []
  | OneShotScript.noToken => []
  | OneShotScript.spawnOneFails => []
  | OneShotScript.spawnTwoFails => [ProcEvent.spawn 1]
  | OneShotScript.exchangeFails => [ProcEvent.spawn 1, ProcEvent.spawn 2]
  | OneShotScript.exchangeCompletes =>
      [ProcEvent.spawn 1, ProcEvent.spawn 2, ProcEvent.terminate 2, ProcEvent.terminate 2]

def spawnedPids (es : List ProcEvent) : List Nat :=
  es.filterMap (fun e => match e with | ProcEvent.spawn p => some p | _ => none)

def terminatedPids (es : List ProcEvent) : List Nat :=
  es.filterMap (fun e => match e with | ProcEvent.terminate p => some p | _ => none)

/-- The children spawned by a call and never handed a terminate call. -/
def livePids (es : List ProcEvent) : List Nat :=
  (spawnedPids es).filter (fun p => !(terminatedPids es).contains p)

/-- C5 (code bug): the claim says every one-shot exchange terminates
the child it launched before returning, leaving 0 live children.  On
the successful exchange the code leaves the first spawned server (the
run_github_mcp_server child at line 111 of src/utils/mcp_client.py)
alive, and when an exception interrupts the exchange it leaves both
children alive: the live-process count after one call is 1,
respectively 2, not 0. -/
theorem c5_one_shot_leak :
    livePids (use_github_mcp_events OneShotScript.exchangeCompletes) = [1] ∧
    (livePids (use_github_mcp_events OneShotScript.exchangeCompletes)).length ≠ 0 ∧
    livePids (use_github_mcp_events OneShotScript.exchangeFails) = [1, 2] := by
  refine ⟨rfl, by decide, rfl⟩

/-! ## Claims C6 and C7: the retrying domain client -/

/-- Outcome of one attempt of a domain call as the retry loop sees it:
the awaited service call either raised (the except branch) or returned
a JSON value. -/
inductive AttemptOutcome where
  | raises : String → AttemptOutcome
  | returns : Json → AttemptOutcome

/-- Trace of one run of a retry loop: the value returned, how many
attempts were issued, and how many backoff sleeps were performed
(the source sleeps a fixed retry_delay of 2 seconds between
consecutive attempts). -/
structure RetryTrace where
  result : Json
  attempts : Nat
  sleeps : Nat

/-- One more attempt was spent, with a backoff sleep, before the
recursive rest of the loop ran. -/
def bump (t : RetryTrace) : RetryTrace := ⟨t.result, t.attempts + 1, t.sleeps + 1⟩

/-- Embedded from src/analyzer/github_mcp.py, lines 100 to 137: the
retry loop of GitHubMcpScraper._get_repository_info.  The first
argument gives the outcome of the attempt with the given index, the
second the not-found message built from owner and repo; the last
argument is the number of loop iterations remaining (max_retries at the
top call).  A run that exhausts the loop without returning mirrors the
implicit Python return of None.  The branch taking the first element of
items models the source subscript, whose defined domain is an API-shaped
items array. -/
def giAux (o : Nat → AttemptOutcome) (notFound : String) : Nat → Nat → RetryTrace
  | _, 0 => ⟨Json.null, 0, 0⟩
  | attempt, remaining + 1 =>
    match o attempt with
    | AttemptOutcome.raises msg =>
        if remaining = 0 then ⟨Json.obj [("error", Json.str msg)], 1, 0⟩
        else bump (giAux o notFound (attempt + 1) remaining)
    | AttemptOutcome.returns j =>
        if pyContains j "error" then
          if remaining = 0 then ⟨j, 1, 0⟩
          else bump (giAux o notFound (attempt + 1) remaining)
        else if pyTruthy (pyGet j "items") then
          match pyGet j "items" with
          | Json.arr (x :: _) => ⟨x, 1, 0⟩
          | _ => ⟨Json.null, 1, 0⟩
        else ⟨Json.obj [("error", Json.str notFound)], 1, 0⟩

/-- GitHubMcpScraper._get_repository_info with max_retries = 3 and the
not-found message interpolating owner and repo as in the source. -/
def get_repository_info (o : Nat → AttemptOutcome) (owner repo : String) : RetryTrace :=
  giAux o ("Repository " ++ owner ++ "/" ++ repo ++ " not found") 0 3

/-- An attempt whose outcome the retry loop treats as a failure: the
call raised, or it returned a dict carrying an error key. -/
def isFailureOutcome : AttemptOutcome → Prop
  | AttemptOutcome.raises _ => True
  | AttemptOutcome.returns j => pyContains j "error" = true

/-- The value the loop hands back for a failing final attempt: the
stringified exception wrapped in an error dict, or the error dict the
service returned. -/
def failureResult : AttemptOutcome → Json
  | AttemptOutcome.raises msg => Json.obj [("error", Json.str msg)]
  | AttemptOutcome.returns j => j

theorem giAux_last (o : Nat → AttemptOutcome) (m : String) (a : Nat)
    (h : isFailureOutcome (o a)) :
    giAux o m a 1 = ⟨failureResult (o a), 1, 0⟩ := by
  cases ho : o a with
  | raises msg => simp [giAux, ho, failureResult]
  | returns j =>
      have hj : pyContains j "error" = true := by rw [ho] at h; exact h
      simp [giAux, ho, failureResult, hj]

theorem giAux_step (o : Nat → AttemptOutcome) (m : String) (a r : Nat)
    (h : isFailureOutcome (o a)) :
    giAux o m a (r + 2) = bump (giAux o m (a + 1) (r + 1)) := by
  cases ho : o a with
  | raises msg => simp [giAux, ho]
  | returns j =>
      have hj : pyContains j "error" = true := by rw [ho] at h; exact h
      simp [giAux, ho, hj]

theorem giAux_attempts_le (o : Nat → AttemptOutcome) (m : String) :
    ∀ (r a : Nat), (giAux o m a r).attempts ≤ r := by
  intro r
  induction r with
  | zero => intro a; simp [giAux]
  | succ n ih =>
      intro a
      cases ho : o a with
      | raises msg =>
          cases n with
          | zero => simp [giAux, ho]
          | succ k =>
              have hle := ih (a + 1)
              simp only [giAux, ho, Nat.succ_ne_zero, if_false, bump]
              simp only [giAux, bump] at hle
              omega
      | returns j =>
          cases hj : pyContains j "error" with
          | true =>
              cases n with
              | zero => simp [giAux, ho, hj]
              | succ k =>
                  have hle := ih (a + 1)
                  simp only [giAux, ho, hj, if_true, Nat.succ_ne_zero, if_false, bump]
                  simp only [giAux, bump] at hle
                  omega
          | false =>
              have hone : (giAux o m a (n + 1)).attempts = 1 := by
                simp only [giAux, ho, hj, Bool.false_eq_true, if_false]
                split
                · split <;> rfl
                · rfl
              omega

theorem giAux_three (o : Nat → AttemptOutcome) (m : String)
    (h0 : isFailureOutcome (o 0)) (h1 : isFailureOutcome (o 1))
    (h2 : isFailureOutcome (o 2)) :
    giAux o m 0 3 = ⟨failureResult (o 2), 3, 2⟩ := by
  have e2 : giAux o m 2 1 = ⟨failureResult (o 2), 1, 0⟩ := giAux_last o m 2 h2
  have e1 : giAux o m 1 2 = bump (giAux o m 2 1) := giAux_step o m 1 0 h1
  have e0 : giAux o m 0 3 = bump (giAux o m 1 2) := giAux_step o m 0 1 h0
  rw [e0, e1, e2]
  rfl

/-- C6 (confirmed): under the policy hard-wired in the source
(max_attempts 3, a fixed backoff sleep between consecutive attempts),
if the underlying transport fails on every attempt, the domain client
issues exactly 3 attempts with 2 backoff sleeps between them, returns
the Failure carrying the last underlying error, never raises (the
embedding is a total function), and never issues a fourth attempt
whatever the outcomes. -/
theorem c6_retry_exhaustion (o : Nat → AttemptOutcome) (owner repo : String)
    (h0 : isFailureOutcome (o 0)) (h1 : isFailureOutcome (o 1))
    (h2 : isFailureOutcome (o 2)) :
    (get_repository_info o owner repo).attempts = 3 ∧
    (get_repository_info o owner repo).sleeps = 2 ∧
    (get_repository_info o owner repo).result = failureResult (o 2) ∧
    ∀ o2 : Nat → AttemptOutcome, (get_repository_info o2 owner repo).attempts ≤ 3 := by
  have h := giAux_three o ("Repository " ++ owner ++ "/" ++ repo ++ " not found") h0 h1 h2
  refine ⟨?_, ?_, ?_, ?_⟩
  · rw [get_repository_info, h]
  · rw [get_repository_info, h]
  · rw [get_repository_info, h]
  · intro o2
    exact giAux_attempts_le o2 _ 3 0

/-- A stub transport that fails on every attempt, raising with a
distinct message on the final one. -/
def c6Stub : Nat → AttemptOutcome
  | 2 => AttemptOutcome.raises "third failure"
  | _ => AttemptOutcome.raises "earlier failure"

/-- C6 witness: the retry-exhaustion theorem at a concrete always-
failing stub. -/
theorem c6_retry_exhaustion_witness :
    (get_repository_info c6Stub "acme" "widgets").attempts = 3 ∧
    (get_repository_info c6Stub "acme" "widgets").sleeps = 2 ∧
    (get_repository_info c6Stub "acme" "widgets").result = failureResult (c6Stub 2) ∧
    ∀ o2 : Nat → AttemptOutcome, (get_repository_info o2 "acme" "widgets").attempts ≤ 3 :=
  c6_retry_exhaustion c6Stub "acme" "widgets" (by trivial) (by trivial) (by trivial)

/-- A well-formed response carrying an application-level error payload:
the remote tool answered, and the answer is an error dict. -/
def toolErrorResp : Json := Json.obj [("error", Json.str "Not Found")]

/-- C7, counterexample: the claim states that a well-formed response
carrying an application-level error payload is returned to the caller
without any automatic retry attempt.  With a transport that returns
such a ToolError dict on every attempt, the domain client issues 3
attempts with 2 backoff sleeps, not the single attempt the claim
requires. -/
theorem c7_counterexample :
    (get_repository_info (fun _ => AttemptOutcome.returns toolErrorResp)
        "acme" "widgets").attempts = 3 ∧
    (get_repository_info (fun _ => AttemptOutcome.returns toolErrorResp)
        "acme" "widgets").sleeps = 2 ∧
    (3 : Nat) ≠ 1 :=
  ⟨rfl, rfl, by decide⟩

/-- C7 (amended): the domain client does not distinguish application-
level ToolError payloads from transport failures: every response
carrying an error key is retried per policy exactly like a timeout or
protocol error, and after exhausting the 3 attempts the last such
Failure is returned unchanged to the caller. -/
theorem c7_tool_error_retried (resp : Json) (owner repo : String)
    (h : pyContains resp "error" = true) :
    get_repository_info (fun _ => AttemptOutcome.returns resp) owner repo =
      ⟨resp, 3, 2⟩ := by
  have hf : isFailureOutcome ((fun _ => AttemptOutcome.returns resp) 0) := h
  have := giAux_three (fun _ => AttemptOutcome.returns resp)
    ("Repository " ++ owner ++ "/" ++ repo ++ " not found") hf hf hf
  rw [get_repository_info, this]
  rfl

/-- C7 witness: the amended theorem at the concrete ToolError dict. -/
theorem c7_tool_error_retried_witness :
    pyContains toolErrorResp "error" = true ∧
    get_repository_info (fun _ => AttemptOutcome.returns toolErrorResp) "acme" "widgets" =
      ⟨toolErrorResp, 3, 2⟩ :=
  ⟨rfl, c7_tool_error_retried toolErrorResp "acme" "widgets" rfl⟩

/-! ## Claim C8: per-item isolation in issue processing -/

/-- Embedded from src/analyzer/github_mcp.py, lines 436 to 498: the
per-issue retry loop inside GitHubMcpScraper._process_issues.  The
oracle gives the end-to-end outcome of one enrichment attempt for this
issue (the get_issue fetch together with the save that follows it in
the same try block); an error dict or an exception consumes one of the
3 attempts, and a clean outcome saves the page, bumps processed_count
and leaves the loop.  The result says whether the issue was processed. -/
def issueAux (get : Nat → AttemptOutcome) : Nat → Nat → Bool
  | _, 0 => false
  | attempt, remaining + 1 =>
    match get attempt with
    | AttemptOutcome.raises _ =>
        if remaining = 0 then false else issueAux get (attempt + 1) remaining
    | AttemptOutcome.returns j =>
        if pyContains j "error" then
          if remaining = 0 then false else issueAux get (attempt + 1) remaining
        else true

/-- The per-issue loop at its source configuration, max_retries = 3. -/
def processIssueOk (get : Nat → AttemptOutcome) : Bool := issueAux get 0 3

/-- One step of the loop over the issue list: skip issues whose number
field is missing or falsy, otherwise add one to the count exactly when
the per-issue retry loop saved the issue. -/
def issueStep (get : Json → Nat → AttemptOutcome) (acc : Nat) (issue : Json) : Nat :=
  if pyTruthy (pyGet issue "number") then
    if processIssueOk (get (pyGet issue "number")) then acc + 1 else acc
  else acc

/-- The contribution of the issue loop to processed_count. -/
def issuesDelta (get : Json → Nat → AttemptOutcome) (issues : List Json) : Nat :=
  issues.foldl (issueStep get) 0

/-- An issue the loop ends up saving: its number field is truthy and
its own retry budget finds a clean enrichment outcome. -/
def issueCounted (get : Json → Nat → AttemptOutcome) (issue : Json) : Bool :=
  pyTruthy (pyGet issue "number") && processIssueOk (get (pyGet issue "number"))

/-- Embedded from src/analyzer/github_mcp.py, lines 400 to 512: the
outer retry loop of GitHubMcpScraper._process_issues around the
list_issues fetch, returning the number of issues added to
processed_count.  A failing or error final attempt returns with no
issues processed; a falsy result (no issues) likewise.  The iteration
over a truthy result is modelled for API-shaped data, a JSON array of
issue objects. -/
def processIssuesAux (lo : Nat → AttemptOutcome) (get : Json → Nat → AttemptOutcome) :
    Nat → Nat → Nat
  | _, 0 => 0
  | attempt, remaining + 1 =>
    match lo attempt with
    | AttemptOutcome.raises _ =>
        if remaining = 0 then 0 else processIssuesAux lo get (attempt + 1) remaining
    | AttemptOutcome.returns j =>
        if pyContains j "error" then
          if remaining = 0 then 0 else processIssuesAux lo get (attempt + 1) remaining
        else if pyTruthy j then
          match j with
          | Json.arr issues => issuesDelta get issues
          | _ => 0
        else 0

/-- GitHubMcpScraper._process_issues at its source configuration,
max_retries = 3 for the list fetch and for each issue. -/
def process_issues (lo : Nat → AttemptOutcome) (get : Json → Nat → AttemptOutcome) : Nat :=
  processIssuesAux lo get 0 3

theorem issuesDelta_foldl (get : Json → Nat → AttemptOutcome) :
    ∀ (issues : List Json) (acc : Nat),
      issues.foldl (issueStep get) acc
        = acc + (issues.filter (issueCounted get)).length := by
  intro issues
  induction issues with
  | nil => intro acc; simp
  | cons i l ih =>
      intro acc
      simp only [List.foldl_cons, List.filter_cons]
      rw [ih]
      by_cases h1 : pyTruthy (pyGet i "number") = true
      · by_cases h2 : processIssueOk (get (pyGet i "number")) = true
        · simp [issueStep, issueCounted, h1, h2]
          omega
        · simp [issueStep, issueCounted, h1, h2]
      · simp [issueStep, issueCounted, h1]

/-- C8 (confirmed): when the issue list is fetched successfully, a
per-issue enrichment failure that survives all of that issue's own
retry attempts only skips that issue: the reported processed count is
exactly the number of issues whose number field is truthy and whose own
retry budget finds a clean outcome, independently of the failing ones. -/
theorem c8_per_item_isolation (issues : List Json) (get : Json → Nat → AttemptOutcome)
    (h : pyContains (Json.arr issues) "error" = false) :
    process_issues (fun _ => AttemptOutcome.returns (Json.arr issues)) get
      = (issues.filter (issueCounted get)).length := by
  cases issues with
  | nil => simp [process_issues, processIssuesAux, pyTruthy, h]
  | cons i l =>
      have ht : pyTruthy (Json.arr (i :: l)) = true := by simp [pyTruthy]
      simp only [process_issues, processIssuesAux, h, ht, Bool.false_eq_true, if_false,
        if_true, issuesDelta]
      rw [issuesDelta_foldl]
      simp

/-- The concrete P5 scenario: five issues numbered 1 to 5. -/
def fiveIssues : List Json :=
  [Json.obj [("number", Json.num 1)], Json.obj [("number", Json.num 2)],
   Json.obj [("number", Json.num 3)], Json.obj [("number", Json.num 4)],
   Json.obj [("number", Json.num 5)]]

/-- Enrichment stub where fetching issue number 3 always returns an
error dict and every other issue succeeds at once. -/
def c8Stub : Json → Nat → AttemptOutcome
  | Json.num 3, _ => AttemptOutcome.returns (Json.obj [("error", Json.str "boom")])
  | _, _ => AttemptOutcome.returns (Json.obj [("title", Json.str "ok")])

/-- C8 witness: with 5 issues of which number 3 always fails, the
processed count is 4, not 0. -/
theorem c8_per_item_isolation_witness :
    pyContains (Json.arr fiveIssues) "error" = false ∧
    process_issues (fun _ => AttemptOutcome.returns (Json.arr fiveIssues)) c8Stub = 4 :=
  ⟨rfl, (c8_per_item_isolation fiveIssues c8Stub rfl).trans rfl⟩

/-! ## Claim C9: the degraded mock fallback -/

/-- Embedded from src/utils/mcp_client.py, lines 176 to 190: the canned
placeholder returned for search_repositories when the exchange with the
child tool-server fails. -/
def mockSearchRepositories : Json :=
  Json.obj [("items", Json.arr [Json.obj [
    ("name", Json.str "crawl4ai"),
    ("full_name", Json.str "unclecode/crawl4ai"),
    ("description", Json.str "A Python library for web crawling and data extraction"),
    ("stargazers_count", Json.num 100),
    ("forks_count", Json.num 20),
    ("default_branch", Json.str "main"),
    ("has_issues", Json.bool true),
    ("has_wiki", Json.bool true)]])]

/-- Embedded from src/utils/mcp_client.py, lines 191 to 196: the canned
placeholder returned for get_file_contents. -/
def mockGetFileContents : Json :=
  Json.obj [
    ("content", Json.str "IyBjcmF3bDRhaQoKQSBQeXRob24gbGlicmFyeSBmb3Igd2ViIGNyYXdsaW5nIGFuZCBkYXRhIGV4dHJhY3Rpb24K"),
    ("encoding", Json.str "base64"),
    ("sha", Json.str "abc123")]

/-- Embedded from src/utils/mcp_client.py, lines 174 to 198: the mock
fallback taken by McpClient.use_github_mcp when the subprocess exchange
raised. -/
def mockFallback (tool_name : String) : Json :=
  if tool_name = "search_repositories" then mockSearchRepositories
  else if tool_name = "get_file_contents" then mockGetFileContents
  else Json.obj [("error", Json.str ("Mock response not implemented for " ++ tool_name))]

/-- The top-level keys of a JSON object. -/
def Json.topKeys : Json → List String
  | Json.obj fields => fields.map Prod.fst
  | _ => []

/-- C9, counterexample: the claim states that a degraded placeholder
result carries a mocked flag set to true or an equivalent marker.  The
canned results the code returns are exactly the ordinary domain
payloads: their top-level keys are items, respectively content,
encoding and sha, with no mocked key and no marker of any kind, so they
are indistinguishable in shape from genuine results. -/
theorem c9_counterexample :
    Json.getKey (mockFallback "search_repositories") "mocked" = none ∧
    Json.getKey (mockFallback "get_file_contents") "mocked" = none ∧
    (mockFallback "search_repositories").topKeys = ["items"] ∧
    (mockFallback "get_file_contents").topKeys = ["content", "encoding", "sha"] ∧
    mockFallback "get_file_contents" = mockGetFileContents :=
  ⟨rfl, rfl, rfl, rfl, rfl⟩

/-- C9 (amended): for every invocation in which the client degrades to
a canned placeholder result, the returned value carries no mocked flag:
whatever the requested tool, the fallback result has no mocked key (the
two placeholder payloads are plain domain-shaped dicts, and every other
tool gets a plain error dict), so degraded results cannot be detected
by such a marker. -/
theorem c9_mock_unmarked (tool_name : String) :
    Json.getKey (mockFallback tool_name) "mocked" = none := by
  unfold mockFallback
  split
  · rfl
  · split
    · rfl
    · rfl

/-! ## Claim C10: sync_repository -/

/-- One pipeline stage of sync_repository (README, repository files,
issues, pull requests) as the enclosing try block sees it: the stage
either completes, having added delta pages to processed_count inside
its own handlers, or lets an exception escape after having added delta
pages. -/
inductive StageRun where
  | completes : Nat → StageRun
  | raisesAfter : Nat → StageRun

/-- Runs the stage list, accumulating processed_count; an escaping
exception stops the run and hands the accumulated count to the broad
except clause of sync_repository, which returns it. -/
def syncStages : List StageRun → Nat → Nat
  | [], acc => acc
  | StageRun.completes d :: rest, acc => syncStages rest (acc + d)
  | StageRun.raisesAfter d :: _, acc => acc + d

/-- Embedded from src/analyzer/github_mcp.py, lines 43 to 91:
GitHubMcpScraper.sync_repository.  The counter is reset, the repository
info is fetched (its result passed in here); an error dict aborts with
0; otherwise the stages run and the final or interrupted count is
returned.  The embedding is a total function: the source wraps the body
in a broad except clause returning the accumulated count. -/
def sync_repository (repoInfo : Json) (stages : List StageRun) : Nat :=
  if pyContains repoInfo "error" then 0
  else syncStages stages 0

theorem syncStages_completes (deltas : List Nat) :
    ∀ acc, syncStages (deltas.map StageRun.completes) acc = acc + deltas.sum := by
  induction deltas with
  | nil => intro acc; simp [syncStages]
  | cons d rest ih =>
      intro acc
      simp only [List.map_cons, syncStages, ih, List.sum_cons]
      omega

theorem syncStages_interrupted (deltas : List Nat) (d : Nat) (rest : List StageRun) :
    ∀ acc, syncStages (deltas.map StageRun.completes ++ StageRun.raisesAfter d :: rest) acc
      = acc + deltas.sum + d := by
  induction deltas with
  | nil => intro acc; simp [syncStages]
  | cons x xs ih =>
      intro acc
      simp only [List.map_cons, List.cons_append, syncStages, List.append_eq, List.sum_cons]
      rw [ih]
      omega

/-- C10 (confirmed): sync_repository never raises (the embedding is a
total function mirroring the broad except clause): when fetching the
repository information yields an error dict it returns 0 with no stage
run, when every stage completes it returns the full accumulated count,
and when an exception escapes a stage mid-sync it returns exactly the
count accumulated up to that point, including the pages the failing
stage had already saved. -/
theorem c10_sync_never_raises (repoInfo : Json) (stages : List StageRun)
    (deltas : List Nat) (d : Nat) (rest : List StageRun) :
    (pyContains repoInfo "error" = true → sync_repository repoInfo stages = 0) ∧
    (pyContains repoInfo "error" = false →
      sync_repository repoInfo (deltas.map StageRun.completes) = deltas.sum ∧
      sync_repository repoInfo (deltas.map StageRun.completes ++ StageRun.raisesAfter d :: rest)
        = deltas.sum + d) := by
  constructor
  · intro h; simp [sync_repository, h]
  · intro h
    constructor
    · simp [sync_repository, h, syncStages_completes]
    · simp [sync_repository, h, syncStages_interrupted]

/-- C10 witness: the theorem applied with a failing repository-info
fetch, with an all-completing stage list, and with a stage list whose
third stage raises after saving one page. -/
theorem c10_sync_never_raises_witness :
    sync_repository (Json.obj [("error", Json.str "rate limited")])
      [StageRun.completes 7] = 0 ∧
    sync_repository (Json.obj [("full_name", Json.str "acme/widgets")])
      ([1, 2].map StageRun.completes) = 3 ∧
    sync_repository (Json.obj [("full_name", Json.str "acme/widgets")])
      ([1, 2].map StageRun.completes ++ StageRun.raisesAfter 1 :: [StageRun.completes 9]) = 4 :=
  ⟨(c10_sync_never_raises (Json.obj [("error", Json.str "rate limited")])
      [StageRun.completes 7] [] 0 []).1 rfl,
   ((c10_sync_never_raises (Json.obj [("full_name", Json.str "acme/widgets")])
      [] [1, 2] 1 [StageRun.completes 9]).2 rfl).1,
   ((c10_sync_never_raises (Json.obj [("full_name", Json.str "acme/widgets")])
      [] [1, 2] 1 [StageRun.completes 9]).2 rfl).2⟩
